import Mathlib

set_option linter.unusedVariables false

/-!
Shallow embedding of the `gobuildcache` GOCACHEPROG cache backend: a two-tier
(local disk + remote object store) build cache speaking a JSON request/response
protocol.  Filesystem and remote effects are modelled by explicit state passing
(`DiskFS`, `Bucket`), OS/remote failures by oracles (`DiskFail`, `Remote`), and
remote contacts are logged as `RemoteCall` values.
-/

namespace GoBuildCache

/-- Raw byte content: each entry is one byte value. -/
abbrev Bytes := List Nat

/-- `action` subdirectory name (local and remote action namespace). -/
def actionDir : String := "action"

/-- `output` subdirectory name (local and remote output namespace). -/
def outputDir : String := "output"

/-- Go `filepath.Join` / `path.Join` on two components: empty components are
dropped (so `Join(cacheDir, "output", "")` is the output directory itself). -/
def filepathJoin (a b : String) : String :=
  if a == "" then b else if b == "" then a else a ++ "/" ++ b

/-- Characters after the last slash (the paths in play never end in a
slash, so no trailing-slash stripping is needed). -/
def baseAux : List Char → List Char → List Char
  | [], acc => acc
  | c :: rest, acc => if c == '/' then baseAux rest [] else baseAux rest (acc ++ [c])

/-- Go `filepath.Base`: the final element of the path. -/
def filepathBase (s : String) : String :=
  if s == "" then "." else String.mk (baseAux s.data [])

/-- Lowercase hexadecimal digit for a value below 16. -/
def hexDigitChar (n : Nat) : Char :=
  if n < 10 then Char.ofNat (48 + n) else Char.ofNat (87 + n)

/-- Go `hex.EncodeToString`: lowercase hexadecimal encoding of a byte string. -/
def hexEncode (bs : Bytes) : String :=
  String.mk ((bs.map (fun b => [hexDigitChar (b / 16 % 16), hexDigitChar (b % 16)])).flatten)

/-- Value of one hexadecimal digit character (Go `hex` accepts both cases). -/
def hexDigitVal (c : Char) : Option Nat :=
  if 48 ≤ c.toNat ∧ c.toNat ≤ 57 then some (c.toNat - 48)
  else if 97 ≤ c.toNat ∧ c.toNat ≤ 102 then some (c.toNat - 87)
  else if 65 ≤ c.toNat ∧ c.toNat ≤ 70 then some (c.toNat - 55)
  else none

/-- Pairwise hexadecimal decoding of a character list. -/
def hexDecodeChars : List Char → Option Bytes
  | [] => some []
  | [_] => none
  | c1 :: c2 :: rest =>
    match hexDigitVal c1, hexDigitVal c2, hexDecodeChars rest with
    | some hi, some lo, some tail => some ((16 * hi + lo) :: tail)
    | _, _, _ => none

/-- Go `hex.DecodeString`: fails on odd length or non-hex characters. -/
def hexDecode (s : String) : Option Bytes := hexDecodeChars s.data

/-- Outcome classification of remote-store errors (`gcerrors`): the
distinguished not-found condition versus any other error. -/
inductive RErr
  | notFound
  | other (msg : String)
deriving DecidableEq, Repr

/-- Remote Store adapter oracle (spec §4.2, external collaborator): what each
remote call would return.  `upload` yields `none` on success, `some msg` on
failure. -/
structure Remote where
  attributes : String → Except RErr (List (String × String))
  download : String → Except RErr Bytes
  upload : String → Option String

/-- One remote-tier contact performed by the engine (effect log). -/
inductive RemoteCall
  | attr (key : String)
  | download (key : String)
  | upload (key : String)
deriving DecidableEq, Repr

/-- Failure oracle for local filesystem operations: selects which OS call, if
any, fails during an operation (modelling disk-full/permission errors). -/
structure DiskFail where
  createTempFail : Bool := false
  copyFail : Bool := false
  closeFail : Bool := false
  renameFail : Bool := false
  readlinkFail : Bool := false
  symlinkFail : Bool := false
deriving DecidableEq, Repr

/-- The disk tier's configuration (`Disk` in the source). -/
structure Disk where
  cacheDir : String
deriving DecidableEq, Repr

/-- Local filesystem contents under the cache directory:
`outputs` are the `output/<hex OutputID>` blob files, `actions` the
`action/<hex ActionID>` symlinks (recorded by target OutputID), `markers` the
`action/<hex ActionID>.empty` negative-result marker files, and `temps` the
currently live temporary files. -/
structure DiskFS where
  outputs : List (String × Bytes) := []
  actions : List (String × String) := []
  markers : List String := []
  temps : List String := []
deriving DecidableEq, Repr

/-- Model of `os.Stat` restricted to the paths the program ever stats in the
output namespace: the output directory itself (which exists — `run` creates it
with `MkdirAll`, and `filepath.Join` drops an empty OutputID component, so the
empty OutputID resolves to the directory) and output blob paths.  Returns the
file size on success. -/
def osStat (d : Disk) (fs : DiskFS) (p : String) : Option Nat :=
  if p == filepathJoin d.cacheDir outputDir then some 0
  else
    match fs.outputs.find? (fun kv => filepathJoin (filepathJoin d.cacheDir outputDir) kv.1 == p) with
    | some kv => some kv.2.length
    | none => none

/-- Name of the temporary file `os.CreateTemp(d.cacheDir, "output")` creates
for this write (the random suffix is modelled deterministically). -/
def tempName (d : Disk) (outputID : String) : String :=
  filepathJoin d.cacheDir ("outputtmp" ++ outputID)

/-- `Disk.PutOutput`: return the existing blob path immediately if the target
exists (reading nothing from the stream); otherwise write the stream to a
temporary file, close it, and rename it into place, removing the temporary
file on every exit path (the deferred `os.RemoveAll`).  Returns the result,
the new filesystem, and the number of bytes consumed from the input stream. -/
def Disk.PutOutput (d : Disk) (fail : DiskFail) (fs : DiskFS) (outputID : String) (r : Bytes) :
    Except String (String × Bool) × DiskFS × Nat :=
  let outputPathname := filepathJoin (filepathJoin d.cacheDir outputDir) outputID
  if (osStat d fs outputPathname).isSome then
    (.ok (outputPathname, true), fs, 0)
  else if fail.createTempFail then
    (.error "creating temporary output file: error", fs, 0)
  else
    let tmp := tempName d outputID
    let fs1 : DiskFS := { fs with temps := tmp :: fs.temps }
    if fail.copyFail then
      (.error "copying output to disk: error", { fs1 with temps := fs1.temps.erase tmp }, 0)
    else if fail.closeFail then
      (.error "flushing output to disk: error", { fs1 with temps := fs1.temps.erase tmp }, r.length)
    else if fail.renameFail then
      (.error "renaming: error", { fs1 with temps := fs1.temps.erase tmp }, r.length)
    else
      (.ok (outputPathname, false),
        { fs1 with outputs := (outputID, r) :: fs1.outputs, temps := fs1.temps.erase tmp },
        r.length)

/-- `Disk.GetOutput`: the deterministic path for an output ID (the source
never returns an error here). -/
def Disk.GetOutput (d : Disk) (outputID : String) : String :=
  filepathJoin (filepathJoin d.cacheDir outputDir) outputID

/-- `Disk.OutputIDFromAction`: read the action symlink; a missing link is the
normal non-error absent result `""`; any other `Readlink` error propagates.
The symlink target is `../output/<outputID>`, of which `filepath.Base` is
taken. -/
def Disk.OutputIDFromAction (d : Disk) (fail : DiskFail) (fs : DiskFS) (actionID : String) :
    Except String String :=
  if fail.readlinkFail then .error "readlink: error"
  else
    match fs.actions.lookup actionID with
    | none => .ok ""
    | some target => .ok (filepathBase (filepathJoin (filepathJoin ".." outputDir) target))

/-- `Disk.LinkActionToOutput` (two-result form): create the symlink;
`os.ErrExist` is the idempotent success `(true, nil)`; any other `Symlink`
error propagates. -/
def Disk.LinkActionToOutput (d : Disk) (fail : DiskFail) (fs : DiskFS)
    (actionID outputID : String) : Except String Bool × DiskFS :=
  if (fs.actions.lookup actionID).isSome then (.ok true, fs)
  else if fail.symlinkFail then (.error "symlink: error", fs)
  else (.ok false, { fs with actions := (actionID, outputID) :: fs.actions })

/-- The two-tier cache's mutable state (`Bucket` in the source): the disk
tier, the shared local filesystem, and the upload job queue fed to the worker
pool (`jobsClosed` records that `close(b.jobs)` has happened). -/
structure Bucket where
  disk : Disk
  fs : DiskFS := {}
  jobs : List String := []
  jobsClosed : Bool := false

/-- `Bucket.OutputIDFromAction`: disk link first; then the local
negative-result marker (`<actionID>.empty` — its presence short-circuits the
remote lookup); then the remote action object's metadata.  Remote not-found
records the marker (the `os.WriteFile` error is ignored by the source) and is
a miss; any other attributes error propagates; an empty `output_id` metadata
entry is a miss without marking; otherwise the local link is created
best-effort and the OutputID returned. -/
def Bucket.OutputIDFromAction (remote : Remote) (fail : DiskFail) (st : Bucket)
    (actionID : String) : Except String String × Bucket × List RemoteCall :=
  match Disk.OutputIDFromAction st.disk fail st.fs actionID with
  | .error e => (.error ("output id from action (disk): " ++ e), st, [])
  | .ok outputID =>
    if outputID != "" then (.ok outputID, st, [])
    else if st.fs.markers.contains actionID then (.ok "", st, [])
    else
      let key := filepathJoin actionDir actionID
      match remote.attributes key with
      | .error .notFound =>
        (.ok "", { st with fs := { st.fs with markers := actionID :: st.fs.markers } },
          [.attr key])
      | .error (.other m) =>
        (.error ("attribute for " ++ actionID ++ ": " ++ m), st, [.attr key])
      | .ok meta =>
        let outputID := (meta.lookup "output_id").getD ""
        if outputID == "" then (.ok "", st, [.attr key])
        else
          let link := Disk.LinkActionToOutput st.disk fail st.fs actionID outputID
          (.ok outputID, { st with fs := link.2 }, [.attr key])

/-- `Bucket.LinkActionToOutput`: create the disk link; only when it is newly
created, upload the zero-length remote action object carrying the OutputID as
metadata. -/
def Bucket.LinkActionToOutput (remote : Remote) (fail : DiskFail) (st : Bucket)
    (actionID outputID : String) : Except String Bool × Bucket × List RemoteCall :=
  match Disk.LinkActionToOutput st.disk fail st.fs actionID outputID with
  | (.error e, fs1) => (.error e, { st with fs := fs1 }, [])
  | (.ok true, fs1) => (.ok true, { st with fs := fs1 }, [])
  | (.ok false, fs1) =>
    let key := filepathJoin actionDir actionID
    match remote.upload key with
    | some e => (.error e, { st with fs := fs1 }, [.upload key])
    | none => (.ok false, { st with fs := fs1 }, [.upload key])

/-- `Bucket.PutOutput`: write to disk; on a fresh write enqueue an upload job
for the path; if the blob already existed, skip replication.  (Sending on a
closed queue cannot occur per spec §5: inserts happen before `close`.) -/
def Bucket.PutOutput (fail : DiskFail) (st : Bucket) (outputID : String) (r : Bytes) :
    Except String (String × Bool) × Bucket × Nat :=
  match Disk.PutOutput st.disk fail st.fs outputID r with
  | (.error e, fs1, n) => (.error e, { st with fs := fs1 }, n)
  | (.ok (pathname, true), fs1, n) => (.ok (pathname, true), { st with fs := fs1 }, n)
  | (.ok (pathname, false), fs1, n) =>
    (.ok (pathname, false), { st with fs := fs1, jobs := st.jobs ++ [pathname] }, n)

/-- One worker-loop iteration for a queued pathname: open the local blob (a
failure is logged and the job dropped with no remote contact), otherwise
attempt the upload to `output/<base>` (success or failure, the attempt is
logged and the job dropped — no retry). -/
def workerUploadCalls (d : Disk) (fs : DiskFS) (pathname : String) : List RemoteCall :=
  match osStat d fs pathname with
  | none => []
  | some _ => [.upload (filepathJoin outputDir (filepathBase pathname))]

/-- `Bucket.Close`: close the job queue to further insertion and wait for the
workers to drain it (`close(b.jobs); b.wg.Wait()`) — modelled sequentially:
the returned state has an empty, closed queue and the call log contains the
workers' upload attempts for every queued job. -/
def Bucket.Close (st : Bucket) : Bucket × List RemoteCall :=
  ({ st with jobs := [], jobsClosed := true },
    (st.jobs.map (workerUploadCalls st.disk st.fs)).flatten)

/-- `Bucket.GetOutput`: return the local blob path if it exists (for the empty
OutputID the joined path is the output directory itself, which exists);
otherwise download the remote output object — not-found is a miss (empty
path, no error), other errors propagate — and persist it via
`Disk.PutOutput`. -/
def Bucket.GetOutput (remote : Remote) (fail : DiskFail) (st : Bucket) (outputID : String) :
    Except String String × Bucket × List RemoteCall :=
  let pathname := Disk.GetOutput st.disk outputID
  if (osStat st.disk st.fs pathname).isSome then (.ok pathname, st, [])
  else
    let key := filepathJoin outputDir outputID
    match remote.download key with
    | .error .notFound => (.ok "", st, [.download key])
    | .error (.other m) => (.error m, st, [.download key])
    | .ok buf =>
      match Disk.PutOutput st.disk fail st.fs outputID buf with
      | (.error e, fs1, _) => (.error e, { st with fs := fs1 }, [.download key])
      | (.ok (p, _), fs1, _) => (.ok p, { st with fs := fs1 }, [.download key])

/-- Protocol command names. -/
inductive Cmd
  | get
  | put
  | close
deriving DecidableEq, Repr

/-- A decoded protocol request (`request` in the source).  `body` is the
payload read for a `put`; `objectID` is the deprecated pre-Go-1.24 field
name for `outputID`. -/
structure Request where
  id : Int := 0
  command : Cmd
  actionID : Bytes := []
  objectID : Option Bytes := none
  outputID : Bytes := []
  body : Bytes := []
  bodySize : Int := 0
deriving DecidableEq, Repr

/-- A protocol response (`response` in the source).  `timeNanos` is the
file's modification wall-clock time, which the model does not track (left at
its zero value). -/
structure Response where
  id : Int := 0
  err : String := ""
  knownCommands : List Cmd := []
  miss : Bool := false
  outputID : Option Bytes := none
  size : Int := 0
  timeNanos : Int := 0
  diskPath : String := ""
deriving DecidableEq, Repr

/-- `Cacher.Get`: resolve the ActionID (hex-encoded) to an OutputID through
the bucket, then fetch the output through the single-flight group keyed
`"get" + outputID` (sequentially: the one execution of the shared work).
Returns (diskPath, error). -/
def Cacher.Get (remote : Remote) (fail : DiskFail) (st : Bucket) (req : Request) :
    (String × Option String) × Bucket × List RemoteCall :=
  let actionID := hexEncode req.actionID
  match Bucket.OutputIDFromAction remote fail st actionID with
  | (.error e, st1, calls) =>
    (("", some ("getting output id from action (bucket): " ++ e)), st1, calls)
  | (.ok outputID, st1, calls) =>
    match Bucket.GetOutput remote fail st1 outputID with
    | (.ok p, st2, calls2) => ((p, none), st2, calls ++ calls2)
    | (.error e, st2, calls2) => (("", some e), st2, calls ++ calls2)

/-- `Cacher.Put`: store the body under the hex OutputID through the
single-flight group keyed `"put" + outputID`, then link the action to the
output; the path is returned together with the link's error, if any. -/
def Cacher.Put (remote : Remote) (fail : DiskFail) (st : Bucket) (req : Request) :
    (String × Option String) × Bucket × List RemoteCall :=
  let actionID := hexEncode req.actionID
  let outputID := hexEncode req.outputID
  match Bucket.PutOutput fail st outputID req.body with
  | (.error e, st1, _) => (("", some e), st1, [])
  | (.ok (pathname, _), st1, _) =>
    match Bucket.LinkActionToOutput remote fail st1 actionID outputID with
    | (.error e, st2, calls) => ((pathname, some e), st2, calls)
    | (.ok _, st2, calls) => ((pathname, none), st2, calls)

/-- The message the stat failure produces for a path (`*os.PathError`). -/
def statErrorMsg (p : String) : String :=
  "stat " ++ p ++ ": no such file or directory"

/-- The deferred response enrichment for non-close commands: stat the
response's `DiskPath` — on failure the response's error field is overwritten
with the stat error; on success the canonical OutputID is re-derived by
hex-decoding the filename (failure sets "invalid output id") and the size is
filled in. -/
def enrichResponse (d : Disk) (fs : DiskFS) (resp : Response) : Response :=
  match osStat d fs resp.diskPath with
  | none => { resp with err := statErrorMsg resp.diskPath }
  | some size =>
    let resp1 :=
      match hexDecode (filepathBase resp.diskPath) with
      | none => { resp with err := "invalid output id" }
      | some bs => { resp with outputID := some bs }
    { resp1 with size := (size : Int) }

/-- Legacy field compatibility: an `ObjectID` (pre-Go-1.24 accidental name)
overrides `OutputID`. -/
def fixLegacy (r : Request) : Request :=
  match r.objectID with
  | some b => { r with outputID := b }
  | none => r

/-- The dispatched handler for one decoded request (the per-request goroutine
body in `run`, including its deferred response enrichment): `close` drains the
upload queue and answers with the bare ID; `get` resolves the action (setting
`Miss` exactly when the produced path is empty); `put` stores the body.  For
non-close commands the response is then enriched from the on-disk state. -/
def handleRequest (remote : Remote) (fail : DiskFail) (st : Bucket) (req : Request) :
    Response × Bucket × List RemoteCall :=
  match req.command with
  | .close =>
    let r := Bucket.Close st
    ({ id := req.id }, r.1, r.2)
  | .get =>
    let r := Cacher.Get remote fail st req
    let resp : Response :=
      { id := req.id, diskPath := r.1.1, err := (r.1.2).getD "", miss := r.1.1 == "" }
    (enrichResponse r.2.1.disk r.2.1.fs resp, r.2.1, r.2.2)
  | .put =>
    let r := Cacher.Put remote fail st req
    let resp : Response :=
      { id := req.id, diskPath := r.1.1, err := (r.1.2).getD "" }
    (enrichResponse r.2.1.disk r.2.1.fs resp, r.2.1, r.2.2)

/-- One element of the input stream: a decoded request record, or the raw
byte-array payload following a `put` record. -/
inductive Msg
  | req (r : Request)
  | body (b : Bytes)
deriving DecidableEq, Repr

/-- The decode loop's outcome: the responses emitted (in dispatch order),
the final state, the remote calls performed, and the fatal session error, if
any (`none` means clean EOF shutdown). -/
abbrev RunResult := List Response × Bucket × List RemoteCall × Option String

/-- The body-size mismatch message (`incorrect length: %d != %d`). -/
def incorrectLengthMsg (got : Nat) (want : Int) : String :=
  "incorrect length: " ++ toString got ++ " != " ++ toString want

/-- The `run` decode loop: decode a request (a stray payload where a request
is expected is a fatal decode error); for a `put` with positive `BodySize`
decode the following payload and fail the whole session if its length
disagrees with `BodySize`, otherwise take exactly those bytes as the body;
dispatch the request and continue.  EOF is a clean shutdown. -/
def runLoop (remote : Remote) (fail : DiskFail) (st : Bucket) : List Msg → RunResult
  | [] => ([], st, [], none)
  | .body _ :: _ => ([], st, [], some "decode: unexpected body")
  | .req r0 :: rest =>
    let r := fixLegacy r0
    if r.command == .put && r.bodySize > 0 then
      match rest with
      | .body buf :: rest2 =>
        if (buf.length : Int) != r.bodySize then
          ([], st, [], some (incorrectLengthMsg buf.length r.bodySize))
        else
          let h := handleRequest remote fail st { r with body := buf }
          let k := runLoop remote fail h.2.1 rest2
          (h.1 :: k.1, k.2.1, h.2.2 ++ k.2.2.1, k.2.2.2)
      | _ => ([], st, [], some "decoding body: error")
    else
      let h := handleRequest remote fail st { r with body := [] }
      let k := runLoop remote fail h.2.1 rest
      (h.1 :: k.1, k.2.1, h.2.2 ++ k.2.2.1, k.2.2.2)

/-- The advertised command set: `close` and `get`, plus `put` unless running
read-only. -/
def caps (readonly : Bool) : List Cmd :=
  if readonly then [.close, .get] else [.close, .get, .put]

/-- `run`: emit the handshake advertising `caps readonly`, then run the
decode loop (the `readonly` flag is consulted nowhere else). -/
def runProg (remote : Remote) (fail : DiskFail) (readonly : Bool) (st : Bucket)
    (msgs : List Msg) : Response × RunResult :=
  ({ knownCommands := caps readonly }, runLoop remote fail st msgs)

/-- Model of `golang.org/x/sync/singleflight` at its spec §4.4 boundary (the
library is an external dependency): per-key state of one flight group.  An
arriving caller joins the in-flight execution if there is one, otherwise
starts a new execution (counted in `execs`); when the execution finishes, its
result is delivered to every waiting caller. -/
structure FlightGroup (α : Type) where
  execs : Nat := 0
  inflight : Bool := false
  waiters : Nat := 0
  delivered : List α := []
deriving Repr

/-- One caller arrives at the flight group's key. -/
def FlightGroup.arrive (g : FlightGroup α) : FlightGroup α :=
  if g.inflight then { g with waiters := g.waiters + 1 }
  else { g with execs := g.execs + 1, inflight := true, waiters := 1 }

/-- The in-flight execution finishes with `result`, which is delivered to all
waiting callers. -/
def FlightGroup.finish (g : FlightGroup α) (result : α) : FlightGroup α :=
  if g.inflight then
    { g with delivered := g.delivered ++ List.replicate g.waiters result,
             inflight := false, waiters := 0 }
  else g

/-- `n` callers arrive in sequence. -/
def FlightGroup.arriveN (g : FlightGroup α) : Nat → FlightGroup α
  | 0 => g
  | n + 1 => (FlightGroup.arriveN g n).arrive

/-- `n` concurrent callers all overlapping on one key (all arrivals precede
the shared execution's completion), the execution computing `work`. -/
def flightAll (n : Nat) (work : α) : FlightGroup α :=
  (FlightGroup.arriveN {} n).finish work

/-- The single-flight key `Cacher.Get` uses: the command name plus the hex
OutputID. -/
def getFlightKey (outputID : String) : String := "get" ++ outputID

/-- The single-flight key `Cacher.Put` uses. -/
def putFlightKey (outputID : String) : String := "put" ++ outputID

/-! ### Concrete instances used by witnesses and counterexamples -/

/-- A concrete disk tier rooted at `"c"`. -/
def cDisk : Disk := ⟨"c"⟩

/-- A remote oracle where every object is absent (not-found) and uploads
succeed. -/
def remoteNotFound : Remote :=
  ⟨fun _ => .error .notFound, fun _ => .error .notFound, fun _ => none⟩

/-- A remote oracle where every call fails with a non-not-found error. -/
def remoteBroken : Remote :=
  ⟨fun _ => .error (.other "boom"), fun _ => .error (.other "boom"), fun _ => some "boom"⟩

/-- No local filesystem operation fails. -/
def failNone : DiskFail := {}

/-- The stream copy to the temporary file fails (e.g. disk full). -/
def failCopy : DiskFail := { copyFail := true }

/-- An empty cache state. -/
def stEmpty : Bucket := { disk := cDisk }

/-- A state with the local action link `aa → bb` but no local blob `bb`. -/
def stMiss : Bucket := { disk := cDisk, fs := { actions := [("aa", "bb")] } }

/-- A state with one local blob and one pending upload job for it. -/
def stJobs : Bucket :=
  { disk := cDisk, fs := { outputs := [("ab", [1, 2, 3])] }, jobs := ["c/output/ab"] }

/-- A `get` request for ActionID `0xaa`. -/
def reqGetMiss : Request := { id := 7, command := .get, actionID := [170] }

/-- A `put` request for ActionID `0xaa`, OutputID `0xab`, declaring a 3-byte
body. -/
def reqPutSized : Request :=
  { id := 3, command := .put, actionID := [170], outputID := [171], bodySize := 3 }

/-- A `put` request whose body was already attached by the decode loop. -/
def reqPutBody : Request :=
  { id := 3, command := .put, actionID := [170], outputID := [171], body := [1, 2, 3] }

/-- A `close` request. -/
def reqClose : Request := { id := 9, command := .close }

/-! ### Helper lemmas -/

/-- The blob path for an OutputID under the cache directory. -/
def outPath (d : Disk) (outputID : String) : String :=
  filepathJoin (filepathJoin d.cacheDir outputDir) outputID

/-- Closed-form characterization of `Disk.PutOutput`: the temporary file never
survives, so the filesystem is unchanged except that a fully successful write
adds the complete blob. -/
theorem DiskPutOutput_eq (d : Disk) (fail : DiskFail) (fs : DiskFS) (outputID : String)
    (r : Bytes) :
    Disk.PutOutput d fail fs outputID r =
      if (osStat d fs (outPath d outputID)).isSome then
        (.ok (outPath d outputID, true), fs, 0)
      else if fail.createTempFail then
        (.error "creating temporary output file: error", fs, 0)
      else if fail.copyFail then (.error "copying output to disk: error", fs, 0)
      else if fail.closeFail then (.error "flushing output to disk: error", fs, r.length)
      else if fail.renameFail then (.error "renaming: error", fs, r.length)
      else (.ok (outPath d outputID, false),
        { fs with outputs := (outputID, r) :: fs.outputs }, r.length) := by
  unfold Disk.PutOutput outPath
  dsimp only
  split
  · rfl
  · split
    · rfl
    · simp only [List.erase_cons_head]

/-- Closed-form characterization of `Bucket.PutOutput` in terms of the same
case split. -/
theorem BucketPutOutput_eq (fail : DiskFail) (st : Bucket) (outputID : String) (r : Bytes) :
    Bucket.PutOutput fail st outputID r =
      if (osStat st.disk st.fs (outPath st.disk outputID)).isSome then
        (.ok (outPath st.disk outputID, true), st, 0)
      else if fail.createTempFail then
        (.error "creating temporary output file: error", st, 0)
      else if fail.copyFail then (.error "copying output to disk: error", st, 0)
      else if fail.closeFail then (.error "flushing output to disk: error", st, r.length)
      else if fail.renameFail then (.error "renaming: error", st, r.length)
      else (.ok (outPath st.disk outputID, false),
        { st with fs := { st.fs with outputs := (outputID, r) :: st.fs.outputs },
                  jobs := st.jobs ++ [outPath st.disk outputID] }, r.length) := by
  unfold Bucket.PutOutput
  rw [DiskPutOutput_eq]
  split_ifs <;> rfl

/-- If a path fails to stat, it is in particular not the output directory. -/
theorem osStat_none_not_dir (d : Disk) (fs : DiskFS) (p : String)
    (h : osStat d fs p = none) : (p == filepathJoin d.cacheDir outputDir) = false := by
  unfold osStat at h
  by_cases hc : (p == filepathJoin d.cacheDir outputDir) = true
  · rw [if_pos hc] at h
    cases h
  · exact Bool.not_eq_true _ |>.mp hc

/-- After a blob for `outputID` is added, its path stats successfully. -/
theorem osStat_cons_self (d : Disk) (fs : DiskFS) (outputID : String) (c : Bytes)
    (hdir : (outPath d outputID == filepathJoin d.cacheDir outputDir) = false) :
    osStat d { fs with outputs := (outputID, c) :: fs.outputs } (outPath d outputID)
      = some c.length := by
  unfold osStat
  rw [if_neg (by simp [hdir])]
  simp [outPath, List.find?]

/-- `fixLegacy` changes neither the command nor the declared body size. -/
theorem fixLegacy_command (r : Request) : (fixLegacy r).command = r.command := by
  unfold fixLegacy
  cases r.objectID <;> rfl

/-- `fixLegacy` preserves `bodySize`. -/
theorem fixLegacy_bodySize (r : Request) : (fixLegacy r).bodySize = r.bodySize := by
  unfold fixLegacy
  cases r.objectID <;> rfl

/-- After `m + 1` arrivals at a fresh flight group, one execution is in
flight and all `m + 1` callers wait on it. -/
theorem FlightGroup.arriveN_succ_init (m : Nat) :
    FlightGroup.arriveN ({} : FlightGroup α) (m + 1) = ⟨1, true, m + 1, []⟩ := by
  induction m with
  | zero => rfl
  | succ k ih =>
    show (FlightGroup.arriveN ({} : FlightGroup α) (k + 1)).arrive = _
    rw [ih]
    simp [FlightGroup.arrive]

/-- The sequential continuation of the decode loop: dispatch one decoded
request, then keep decoding. -/
def runStep (remote : Remote) (fail : DiskFail) (st : Bucket) (r : Request)
    (rest : List Msg) : RunResult :=
  let h := handleRequest remote fail st r
  let k := runLoop remote fail h.2.1 rest
  (h.1 :: k.1, k.2.1, h.2.2 ++ k.2.2.1, k.2.2.2)

/-! ### Claim theorems -/

/-- C1: the claim says a get that resolves to no local path is emitted as
`Miss: true` with an empty `Err`.  The code violates this: at a concrete miss
(local action link present, output blob absent locally and remotely) the
dispatched handler sets `Miss`, but the deferred response enrichment then
stats the empty `DiskPath`, fails, and overwrites `Err` with the stat error
text — so the emitted miss response carries non-empty error text. -/
theorem miss_response_carries_stat_error :
    (handleRequest remoteNotFound failNone stMiss reqGetMiss).1.miss = true
    ∧ (handleRequest remoteNotFound failNone stMiss reqGetMiss).1.err = statErrorMsg ""
    ∧ statErrorMsg "" ≠ "" := by
  refine ⟨by decide, by decide, by decide⟩

/-- C2: a lookup whose ActionID has no local action link and no
negative-result marker, and whose remote metadata fetch fails with an error
other than not-found, returns that error as a failure (never a miss). -/
theorem remote_error_propagates (remote : Remote) (fail : DiskFail) (st : Bucket)
    (actionID msg : String)
    (hrl : fail.readlinkFail = false)
    (hlink : st.fs.actions.lookup actionID = none)
    (hmark : actionID ∉ st.fs.markers)
    (hattr : remote.attributes (filepathJoin actionDir actionID) = .error (.other msg)) :
    Bucket.OutputIDFromAction remote fail st actionID
      = (.error ("attribute for " ++ actionID ++ ": " ++ msg), st,
         [.attr (filepathJoin actionDir actionID)]) := by
  simp [Bucket.OutputIDFromAction, Disk.OutputIDFromAction, hrl, hlink, hmark, hattr]

/-- Witness for C2 at a concrete broken remote. -/
theorem remote_error_propagates_witness :
    Bucket.OutputIDFromAction remoteBroken failNone stEmpty "aa"
      = (.error ("attribute for " ++ "aa" ++ ": " ++ "boom"), stEmpty,
         [.attr (filepathJoin actionDir "aa")]) :=
  remote_error_propagates remoteBroken failNone stEmpty "aa" "boom" rfl rfl (by decide) rfl

/-- C3: when an ActionID absent from the local tier gets remote not-found,
the negative-result marker is recorded and the lookup reports a miss; every
subsequent lookup for that ActionID is then a miss served from the marker
with no remote contact, whatever the remote oracle would answer. -/
theorem negative_cache_recorded_and_stable (remote : Remote) (fail : DiskFail) (st : Bucket)
    (actionID : String)
    (hrl : fail.readlinkFail = false)
    (hlink : st.fs.actions.lookup actionID = none)
    (hmark : actionID ∉ st.fs.markers)
    (hattr : remote.attributes (filepathJoin actionDir actionID) = .error .notFound) :
    (Bucket.OutputIDFromAction remote fail st actionID).1 = .ok ""
    ∧ actionID ∈ (Bucket.OutputIDFromAction remote fail st actionID).2.1.fs.markers
    ∧ ∀ (remote2 : Remote) (fail2 : DiskFail), fail2.readlinkFail = false →
        Bucket.OutputIDFromAction remote2 fail2
            (Bucket.OutputIDFromAction remote fail st actionID).2.1 actionID
          = (.ok "", (Bucket.OutputIDFromAction remote fail st actionID).2.1, []) := by
  have hres : Bucket.OutputIDFromAction remote fail st actionID
      = (.ok "", { st with fs := { st.fs with markers := actionID :: st.fs.markers } },
         [.attr (filepathJoin actionDir actionID)]) := by
    simp [Bucket.OutputIDFromAction, Disk.OutputIDFromAction, hrl, hlink, hmark, hattr]
  rw [hres]
  refine ⟨rfl, by simp, ?_⟩
  intro remote2 fail2 hrl2
  simp [Bucket.OutputIDFromAction, Disk.OutputIDFromAction, hrl2, hlink]

/-- Witness for C3: a fresh ActionID misses against the not-found remote, and
the second lookup still misses with the remote made to fail on any call. -/
theorem negative_cache_witness :
    (Bucket.OutputIDFromAction remoteNotFound failNone stEmpty "aa").1 = .ok ""
    ∧ Bucket.OutputIDFromAction remoteBroken failNone
          (Bucket.OutputIDFromAction remoteNotFound failNone stEmpty "aa").2.1 "aa"
        = (.ok "", (Bucket.OutputIDFromAction remoteNotFound failNone stEmpty "aa").2.1, []) :=
  ⟨(negative_cache_recorded_and_stable remoteNotFound failNone stEmpty "aa"
      rfl rfl (by decide) rfl).1,
   (negative_cache_recorded_and_stable remoteNotFound failNone stEmpty "aa"
      rfl rfl (by decide) rfl).2.2 remoteBroken failNone rfl⟩

/-- C5: `Disk.PutOutput` removes the temporary file on every exit path, and
the final output path is only touched by a fully successful write: any
failure leaves the filesystem exactly as it was, and a fresh success installs
the complete blob. -/
theorem disk_write_atomic (d : Disk) (fail : DiskFail) (fs : DiskFS) (outputID : String)
    (r : Bytes) :
    (Disk.PutOutput d fail fs outputID r).2.1.temps = fs.temps
    ∧ (∀ e, (Disk.PutOutput d fail fs outputID r).1 = .error e →
        (Disk.PutOutput d fail fs outputID r).2.1 = fs)
    ∧ (∀ p, (Disk.PutOutput d fail fs outputID r).1 = .ok (p, false) →
        (Disk.PutOutput d fail fs outputID r).2.1.outputs = (outputID, r) :: fs.outputs) := by
  rw [DiskPutOutput_eq]
  split_ifs
  · exact ⟨rfl, fun e h => by simp at h, fun p h => by simp at h⟩
  · exact ⟨rfl, fun e h => rfl, fun p h => by simp at h⟩
  · exact ⟨rfl, fun e h => rfl, fun p h => by simp at h⟩
  · exact ⟨rfl, fun e h => rfl, fun p h => by simp at h⟩
  · exact ⟨rfl, fun e h => rfl, fun p h => by simp at h⟩
  · exact ⟨rfl, fun e h => by simp at h, fun p h => rfl⟩

/-- Witness for C5 at a concrete failing copy: the state (temporary files
included) is exactly the initial one. -/
theorem disk_write_atomic_witness :
    (Disk.PutOutput cDisk failCopy {} "ab" [1, 2]).2.1.temps = ([] : List String)
    ∧ (Disk.PutOutput cDisk failCopy {} "ab" [1, 2]).2.1 = ({} : DiskFS) :=
  ⟨(disk_write_atomic cDisk failCopy {} "ab" [1, 2]).1,
   (disk_write_atomic cDisk failCopy {} "ab" [1, 2]).2.1
     "copying output to disk: error" rfl⟩

/-- C4: once a store of an OutputID has succeeded, storing the same OutputID
again (with any failure oracle) returns the same local path with
`alreadyExisted = true`, consumes zero bytes from the input stream, and
leaves the state — in particular the upload job queue — unchanged, so no
second upload job is enqueued. -/
theorem idempotent_store (fail1 fail2 : DiskFail) (st : Bucket) (outputID : String)
    (c : Bytes) (p : String) (b : Bool)
    (h : (Bucket.PutOutput fail1 st outputID c).1 = .ok (p, b)) :
    Bucket.PutOutput fail2 (Bucket.PutOutput fail1 st outputID c).2.1 outputID c
      = (.ok (p, true), (Bucket.PutOutput fail1 st outputID c).2.1, 0) := by
  by_cases h1 : (osStat st.disk st.fs (outPath st.disk outputID)).isSome
  · have e1 : Bucket.PutOutput fail1 st outputID c
        = (.ok (outPath st.disk outputID, true), st, 0) := by
      rw [BucketPutOutput_eq, if_pos h1]
    rw [e1] at h ⊢
    rw [Except.ok.injEq, Prod.mk.injEq] at h
    obtain ⟨hp, hb⟩ := h
    subst hp
    rw [BucketPutOutput_eq, if_pos h1]
  · rw [BucketPutOutput_eq, if_neg h1] at h
    split_ifs at h with h2 h3 h4 h5
    rw [Except.ok.injEq, Prod.mk.injEq] at h
    obtain ⟨hp, hb⟩ := h
    subst hp
    have e1 : Bucket.PutOutput fail1 st outputID c
        = (.ok (outPath st.disk outputID, false),
           { st with fs := { st.fs with outputs := (outputID, c) :: st.fs.outputs },
                     jobs := st.jobs ++ [outPath st.disk outputID] }, c.length) := by
      rw [BucketPutOutput_eq, if_neg h1, if_neg h2, if_neg h3, if_neg h4, if_neg h5]
    rw [e1]
    have hdir : (outPath st.disk outputID == filepathJoin st.disk.cacheDir outputDir)
        = false :=
      osStat_none_not_dir st.disk st.fs _ (Option.not_isSome_iff_eq_none.mp h1)
    have hstat := osStat_cons_self st.disk st.fs outputID c hdir
    rw [BucketPutOutput_eq]
    dsimp only
    rw [if_pos (by rw [hstat]; rfl)]

/-- Witness for C4: after a fresh successful store of `"ab"`, a second store
of the same content returns the same path, reads nothing, and changes
nothing. -/
theorem idempotent_store_witness :
    Bucket.PutOutput failCopy (Bucket.PutOutput failNone stEmpty "ab" [1, 2, 3]).2.1
        "ab" [1, 2, 3]
      = (.ok ("c/output/ab", true),
         (Bucket.PutOutput failNone stEmpty "ab" [1, 2, 3]).2.1, 0) :=
  idempotent_store failNone failCopy stEmpty "ab" [1, 2, 3] "c/output/ab" false rfl

/-- C6: the close handler's response is computed only from the state in which
the upload queue has been closed and fully drained: the returned state has
`jobs = []` and the queue closed, and the call log emitted before the close
response contains the workers' upload attempt for every previously enqueued
job. -/
theorem close_drains_before_response (remote : Remote) (fail : DiskFail) (st : Bucket)
    (req : Request) (h : req.command = .close) :
    (handleRequest remote fail st req).1 = { id := req.id }
    ∧ (handleRequest remote fail st req).2.1.jobs = []
    ∧ (handleRequest remote fail st req).2.1.jobsClosed = true
    ∧ (handleRequest remote fail st req).2.2
        = (st.jobs.map (workerUploadCalls st.disk st.fs)).flatten
    ∧ ∀ p ∈ st.jobs,
        workerUploadCalls st.disk st.fs p ⊆ (handleRequest remote fail st req).2.2 := by
  have e : handleRequest remote fail st req
      = ({ id := req.id }, { st with jobs := [], jobsClosed := true },
         (st.jobs.map (workerUploadCalls st.disk st.fs)).flatten) := by
    unfold handleRequest
    rw [h]
    rfl
  rw [e]
  refine ⟨rfl, rfl, rfl, rfl, ?_⟩
  intro p hp x hx
  exact List.mem_flatten.mpr
    ⟨workerUploadCalls st.disk st.fs p, List.mem_map.mpr ⟨p, hp, rfl⟩, hx⟩

/-- Witness for C6: closing with one pending job drains it, and the upload
attempt for that job is in the emitted call log. -/
theorem close_drains_witness :
    (handleRequest remoteNotFound failNone stJobs reqClose).1 = { id := 9 }
    ∧ (handleRequest remoteNotFound failNone stJobs reqClose).2.1.jobs = []
    ∧ (handleRequest remoteNotFound failNone stJobs reqClose).2.1.jobsClosed = true
    ∧ RemoteCall.upload "output/ab"
        ∈ (handleRequest remoteNotFound failNone stJobs reqClose).2.2 :=
  ⟨(close_drains_before_response remoteNotFound failNone stJobs reqClose rfl).1,
   (close_drains_before_response remoteNotFound failNone stJobs reqClose rfl).2.1,
   (close_drains_before_response remoteNotFound failNone stJobs reqClose rfl).2.2.1,
   (close_drains_before_response remoteNotFound failNone stJobs reqClose rfl).2.2.2.2
     "c/output/ab" (by decide) (by decide)⟩

/-- C7: a `put` whose declared `BodySize` differs from the actual payload
length terminates the whole session with the length error — no response is
emitted and the rest of the stream is never processed; when they agree, the
handler is dispatched with exactly the payload bytes as the stored content
and the loop continues. -/
theorem put_framing_integrity (remote : Remote) (fail : DiskFail) (st : Bucket)
    (r0 : Request) (buf : Bytes) (rest : List Msg)
    (hc : r0.command = .put) (hs : 0 < r0.bodySize) :
    ((buf.length : Int) ≠ r0.bodySize →
      runLoop remote fail st (.req r0 :: .body buf :: rest)
        = ([], st, [], some (incorrectLengthMsg buf.length r0.bodySize)))
    ∧ ((buf.length : Int) = r0.bodySize →
      runLoop remote fail st (.req r0 :: .body buf :: rest)
        = runStep remote fail st { fixLegacy r0 with body := buf } rest
      ∧ ({ fixLegacy r0 with body := buf } : Request).body = buf) := by
  constructor
  · intro hne
    simp only [runLoop, fixLegacy_command, fixLegacy_bodySize, hc, hs, beq_self_eq_true,
      Bool.and_eq_true, decide_eq_true_eq, and_true, true_and, bne_iff_ne, ne_eq,
      hne, not_false_eq_true, if_true, if_pos]
  · intro heq
    refine ⟨?_, rfl⟩
    simp only [runLoop, fixLegacy_command, fixLegacy_bodySize, hc, hs, beq_self_eq_true,
      Bool.and_eq_true, decide_eq_true_eq, and_true, true_and, bne_iff_ne, ne_eq,
      heq, not_true_eq_false, if_false, if_true, if_pos]
    rfl

/-- Witness for C7: a declared 3-byte body followed by 2 bytes kills the
session; followed by 3 bytes, the put is dispatched with exactly those
bytes. -/
theorem put_framing_witness :
    runLoop remoteNotFound failNone stEmpty [.req reqPutSized, .body [1, 2]]
      = ([], stEmpty, [], some (incorrectLengthMsg 2 3))
    ∧ runLoop remoteNotFound failNone stEmpty [.req reqPutSized, .body [1, 2, 3]]
      = runStep remoteNotFound failNone stEmpty
          { fixLegacy reqPutSized with body := [1, 2, 3] } [] :=
  ⟨(put_framing_integrity remoteNotFound failNone stEmpty reqPutSized [1, 2] []
      rfl (by decide)).1 (by decide),
   ((put_framing_integrity remoteNotFound failNone stEmpty reqPutSized [1, 2, 3] []
      rfl (by decide)).2 (by decide)).1⟩

/-- C8 counterexample: in read-only mode the handshake advertises only
`close` and `get`, yet an incoming `put` request is executed, not rejected —
the write path runs: the response reports the stored path with no error, the
blob lands in the local output namespace, and the session does not fail. -/
theorem readonly_put_executes :
    (runProg remoteNotFound failNone true stEmpty
        [.req reqPutSized, .body [1, 2, 3]]).1.knownCommands = [Cmd.close, Cmd.get]
    ∧ (runProg remoteNotFound failNone true stEmpty
        [.req reqPutSized, .body [1, 2, 3]]).2.1
      = [{ id := 3, err := "", outputID := some [171], size := 3,
           diskPath := "c/output/ab" }]
    ∧ (runProg remoteNotFound failNone true stEmpty
        [.req reqPutSized, .body [1, 2, 3]]).2.2.1.fs.outputs.lookup "ab"
      = some [1, 2, 3]
    ∧ (runProg remoteNotFound failNone true stEmpty
        [.req reqPutSized, .body [1, 2, 3]]).2.2.2.2 = none := by
  refine ⟨by decide, by decide, by decide, by decide⟩

/-- C8 amended: read-only mode omits `put` from the handshake's
known-command list, but the request loop is mode-independent — an incoming
`put` is processed exactly as in read-write mode (the code relies on the
client honoring the advertised contract; there is no rejection path). -/
theorem readonly_handshake_only (remote : Remote) (fail : DiskFail) (st : Bucket)
    (msgs : List Msg) :
    (runProg remote fail true st msgs).1.knownCommands = [Cmd.close, Cmd.get]
    ∧ Cmd.put ∉ (runProg remote fail true st msgs).1.knownCommands
    ∧ (runProg remote fail true st msgs).2 = (runProg remote fail false st msgs).2 := by
  refine ⟨rfl, by simp [runProg, caps], rfl⟩

/-- C9: `n` overlapping callers sharing one single-flight key (the command
name plus hex OutputID, e.g. `getFlightKey`) cause exactly one execution of
the underlying fetch, and every caller is delivered that one execution's
result — the same path and the same error. -/
theorem single_flight_get_dedup (remote : Remote) (fail : DiskFail) (st : Bucket)
    (outputID : String) (n : Nat) (h : 0 < n) :
    (flightAll n ((Bucket.GetOutput remote fail st outputID).1)).execs = 1
    ∧ (flightAll n ((Bucket.GetOutput remote fail st outputID).1)).delivered
        = List.replicate n ((Bucket.GetOutput remote fail st outputID).1)
    ∧ getFlightKey outputID = "get" ++ outputID := by
  obtain ⟨m, rfl⟩ : ∃ m, n = m + 1 := ⟨n - 1, (Nat.succ_pred_eq_of_pos h).symm⟩
  unfold flightAll
  rw [FlightGroup.arriveN_succ_init]
  exact ⟨rfl, by simp [FlightGroup.finish], rfl⟩

/-- Witness for C9 with three concurrent callers. -/
theorem single_flight_witness :
    (flightAll 3 ((Bucket.GetOutput remoteNotFound failNone stEmpty "ab").1)).execs = 1
    ∧ (flightAll 3 ((Bucket.GetOutput remoteNotFound failNone stEmpty "ab").1)).delivered
        = List.replicate 3 ((Bucket.GetOutput remoteNotFound failNone stEmpty "ab").1)
    ∧ getFlightKey "ab" = "get" ++ "ab" :=
  single_flight_get_dedup remoteNotFound failNone stEmpty "ab" 3 (by decide)

/-- C10: if the local disk write during a `Put` fails, `Cacher.Put` returns
the error with an empty path and the state is completely unchanged — no
upload job is enqueued, no local action link or marker is created, and no
remote call (in particular no remote action-object upload) is made. -/
theorem put_disk_failure_no_side_effects (remote : Remote) (fail : DiskFail) (st : Bucket)
    (req : Request) (e : String)
    (h : (Disk.PutOutput st.disk fail st.fs (hexEncode req.outputID) req.body).1
          = .error e) :
    Cacher.Put remote fail st req = (("", some e), st, []) := by
  unfold Cacher.Put
  rw [DiskPutOutput_eq] at h
  dsimp only
  rw [BucketPutOutput_eq]
  split_ifs at h ⊢ with h1 h2 h3 h4 h5 <;> (injection h with h6; subst h6; rfl)

/-- Witness for C10: a failing copy during a concrete `put` leaves the empty
state untouched with no remote contact. -/
theorem put_disk_failure_witness :
    Cacher.Put remoteNotFound failCopy stEmpty reqPutBody
      = (("", some "copying output to disk: error"), stEmpty, []) :=
  put_disk_failure_no_side_effects remoteNotFound failCopy stEmpty reqPutBody
    "copying output to disk: error" rfl

end GoBuildCache
